import Mathlib

/-!
Shallow embedding of `circuit_watch.py`, a call-protection circuit breaker.

The breaker wraps a unit of work, tracks recent call outcomes in a bounded
sliding window, trips from CLOSED to OPEN when a failure-rate threshold is
crossed, rejects calls while OPEN until a cool-down has elapsed, and probes
recovery through a HALF_OPEN trial phase.

Modelling conventions:
- wall-clock instants and durations are rationals (seconds);
- `datetime.utcnow()` is an explicit `now : Rat` parameter at each point the
  source reads the clock;
- Python exceptions visible at the call boundary are the `PyError` inductive;
- the outcome deque stores only the success flag of each `CallDetail`
  (record timestamps are never read by any count-based code path);
- `timedelta.seconds` is the seconds-within-day component of the elapsed
  time, i.e. the floor of the elapsed seconds taken modulo 86400.
-/

namespace CircuitWatch

inductive CircuitState where
  | OPEN_STATE
  | CLOSED_STATE
  | HALF_OPEN_STATE
deriving DecidableEq, Repr

inductive SlidingWindowType where
  | COUNT_BASED
  | TIME_BASED
deriving DecidableEq, Repr

/-- Python exceptions observable at the breaker's call boundary. -/
inductive PyError where
  | circuitOpen
  | slowCall
  | typeError
  | workError
deriving DecidableEq, Repr

/-- CBConstants.DEFAULT_COUNT_BASED_WINDOW_SIZE -/
def DEFAULT_COUNT_BASED_WINDOW_SIZE : Nat := 2
/-- CBConstants.DEFAULT_TIME_BASED_WINDOW_SIZE -/
def DEFAULT_TIME_BASED_WINDOW_SIZE : Nat := 60
/-- CBConstants.DEFAULT_FAILURE_RATE -/
def DEFAULT_FAILURE_RATE : ℚ := 1
/-- CBConstants.DEFAULT_OPEN_STATE_DURATION -/
def DEFAULT_OPEN_STATE_DURATION : ℚ := 10
/-- CBConstants.DEFAULT_HALF_OPEN_STATE_CALLS -/
def DEFAULT_HALF_OPEN_STATE_CALLS : Nat := 1
/-- CBConstants.DEFAULT_HALF_OPEN_STATE_DURATION -/
def DEFAULT_HALF_OPEN_STATE_DURATION : ℚ := 0

/-- Python `x or default` for an optional nonnegative integer argument:
the default is used when the argument is `None` or `0` (falsy). -/
def pyOrNat (v : Option Nat) (d : Nat) : Nat :=
  match v with
  | none => d
  | some 0 => d
  | some (n + 1) => n + 1

/-- Python `x or default` for an optional float argument:
the default is used when the argument is `None` or `0.0` (falsy). -/
def pyOrRat (v : Option ℚ) (d : ℚ) : ℚ :=
  match v with
  | none => d
  | some x => if x = 0 then d else x

/-- `CircuitStorage`: configuration plus the mutable sliding-window state. -/
structure CircuitStorage where
  sliding_window_type : SlidingWindowType
  count_based_window_size : Nat
  time_based_window_size : Nat
  failure_rate : ℚ
  slow_call_duration : Option ℚ
  open_state_duration : ℚ
  half_open_state_calls_threshold : Nat
  half_open_state_duration : ℚ
  total_calls : List Bool
  window_start_time : Option ℚ
  half_open_state_total_calls : Nat
  circuit_state : CircuitState
deriving DecidableEq, Repr

/-- `CircuitStorage.__init__`, with the Python keyword arguments in source
order; each `None`-defaulted numeric option falls back to its default when
falsy (`x or DEFAULT`), and `slow_call_duration` is stored as given. -/
def mkCircuitStorage (sliding_window_type : Option SlidingWindowType)
    (count_based_window_size : Option Nat) (time_based_window_size : Option Nat)
    (failure_rate : Option ℚ) (slow_call_duration : Option ℚ)
    (half_open_state_calls_threshold : Option Nat)
    (half_open_state_duration : Option ℚ) (open_state_duration : Option ℚ) :
    CircuitStorage where
  sliding_window_type := sliding_window_type.getD SlidingWindowType.COUNT_BASED
  count_based_window_size := pyOrNat count_based_window_size DEFAULT_COUNT_BASED_WINDOW_SIZE
  time_based_window_size := pyOrNat time_based_window_size DEFAULT_TIME_BASED_WINDOW_SIZE
  failure_rate := pyOrRat failure_rate DEFAULT_FAILURE_RATE
  slow_call_duration := slow_call_duration
  open_state_duration := pyOrRat open_state_duration DEFAULT_OPEN_STATE_DURATION
  half_open_state_calls_threshold :=
    pyOrNat half_open_state_calls_threshold DEFAULT_HALF_OPEN_STATE_CALLS
  half_open_state_duration := pyOrRat half_open_state_duration DEFAULT_HALF_OPEN_STATE_DURATION
  total_calls := []
  window_start_time := none
  half_open_state_total_calls := 0
  circuit_state := CircuitState.CLOSED_STATE

/-- `CircuitBreaker`: `last_failure_time` plus the owned `CircuitStorage`.
Listener fan-out is modelled as a no-op (the source's listener interface is
all `pass`; listeners are opaque external collaborators). -/
structure CircuitBreaker where
  last_failure_time : Option ℚ
  storage : CircuitStorage
deriving DecidableEq, Repr

/-- `CircuitBreaker.__init__` with the configuration forwarded to the storage. -/
def mkCircuitBreaker (sliding_window_type : Option SlidingWindowType)
    (count_based_window_size : Option Nat) (time_based_window_size : Option Nat)
    (failure_rate : Option ℚ) (slow_call_duration : Option ℚ)
    (half_open_state_calls_threshold : Option Nat)
    (half_open_state_duration : Option ℚ) (open_state_duration : Option ℚ) :
    CircuitBreaker where
  last_failure_time := none
  storage := mkCircuitStorage sliding_window_type count_based_window_size
    time_based_window_size failure_rate slow_call_duration
    half_open_state_calls_threshold half_open_state_duration open_state_duration

/-- `CircuitBreaker.reset_calls`: clear the outcome deque. -/
def reset_calls (cb : CircuitBreaker) : CircuitBreaker :=
  { cb with storage := { cb.storage with total_calls := [] } }

/-- `CircuitBreaker.set_circuit_breaker_state`: assign the state tag and
notify listeners (listener calls have no effect on breaker state). -/
def set_circuit_breaker_state (cb : CircuitBreaker) (state : CircuitState) : CircuitBreaker :=
  { cb with storage := { cb.storage with circuit_state := state } }

/-- `CircuitBreaker.update_last_failure_time`: record the current instant. -/
def update_last_failure_time (cb : CircuitBreaker) (now : ℚ) : CircuitBreaker :=
  { cb with last_failure_time := some now }

/-- Count of failed records in a window (the loop accumulating `fail_counter`). -/
def failCount (calls : List Bool) : Nat :=
  (calls.filter (fun c => !c)).length

/-- `CircuitBreaker.check_if_max_fails_reached`: the window is full
(`len >= count_based_window_size`) and the failed fraction meets the
failure-rate threshold. -/
def check_if_max_fails_reached (cb : CircuitBreaker) : Bool :=
  let total_calls := cb.storage.total_calls.length
  if cb.storage.count_based_window_size ≤ total_calls then
    decide (cb.storage.failure_rate ≤ (failCount cb.storage.total_calls : ℚ) / (total_calls : ℚ))
  else
    false

/-- Python `timedelta.seconds` of an elapsed time given in seconds: the
seconds-within-day component, `⌊d⌋ mod 86400` with floor division. -/
def timedeltaSeconds (d : ℚ) : ℤ :=
  ⌊d⌋ % 86400

/-- `CircuitBreaker.check_if_open_state_duration_elapsed`: compares the
`.seconds` component of `utcnow() - last_failure_time` against the cool-down;
when `last_failure_time` is `None`, the subtraction raises `TypeError`. -/
def check_if_open_state_duration_elapsed (cb : CircuitBreaker) (now : ℚ) :
    Except PyError Bool :=
  match cb.last_failure_time with
  | none => .error .typeError
  | some lft =>
      .ok (decide (cb.storage.open_state_duration ≤ (timedeltaSeconds (now - lft) : ℚ)))

/-- `CircuitBreaker.update_total_calls_details`: pop from the front while the
deque is longer than the count-based window size. -/
def update_total_calls_details (window_size : Nat) : List Bool → List Bool
  | [] => []
  | c :: rest =>
      if window_size < (c :: rest).length then update_total_calls_details window_size rest
      else c :: rest

/-- `CircuitBreaker.add_call_detail`: append an outcome record, then evict
from the front until the window bound holds. -/
def add_call_detail (cb : CircuitBreaker) (status : Bool) : CircuitBreaker :=
  { cb with storage := { cb.storage with
      total_calls := update_total_calls_details cb.storage.count_based_window_size
        (cb.storage.total_calls ++ [status]) } }

/-- `CircuitBreaker.check_if_execution_time_breached`: when a slow-call
threshold is configured and the measured duration meets or exceeds it, raise
`CircuitExecutionTimeBreachedException` (modelled as `PyError.slowCall`). -/
def check_if_execution_time_breached (cb : CircuitBreaker) (start_time end_time : ℚ) :
    Except PyError Unit :=
  match cb.storage.slow_call_duration with
  | none => .ok ()
  | some d => if d ≤ end_time - start_time then .error .slowCall else .ok ()

/-- `CircuitBreaker.increment_half_open_state_success_calls`. -/
def increment_half_open_state_success_calls (cb : CircuitBreaker) : CircuitBreaker :=
  { cb with storage := { cb.storage with
      half_open_state_total_calls := cb.storage.half_open_state_total_calls + 1 } }

/-- `CircuitBreaker.reset_half_open_state_calls_counter`. -/
def reset_half_open_state_calls_counter (cb : CircuitBreaker) : CircuitBreaker :=
  { cb with storage := { cb.storage with half_open_state_total_calls := 0 } }

/-- `CircuitBreaker.check_half_open_call_success`: the half-open success
counter has reached the trial-call threshold. -/
def check_half_open_call_success (cb : CircuitBreaker) : Bool :=
  decide (cb.storage.half_open_state_calls_threshold ≤ cb.storage.half_open_state_total_calls)

/-- `handle_success`, dispatched to the handler of the current state:
`CircuitBreakerState.on_success` (the shared base method, also used by the
open-state handler) appends a success record; `CircuitHalfOpenState.on_success`
increments the trial counter and, at the threshold, transitions to CLOSED,
clears the window and resets the counter. -/
def handle_success (cb : CircuitBreaker) : CircuitBreaker :=
  match cb.storage.circuit_state with
  | CircuitState.CLOSED_STATE => add_call_detail cb true
  | CircuitState.OPEN_STATE => add_call_detail cb true
  | CircuitState.HALF_OPEN_STATE =>
      let cb1 := increment_half_open_state_success_calls cb
      if check_half_open_call_success cb1 then
        reset_half_open_state_calls_counter
          (reset_calls (set_circuit_breaker_state cb1 CircuitState.CLOSED_STATE))
      else cb1

/-- `handle_failure`, dispatched to the handler of the current state:
`CircuitCloseState.on_failure` appends a failure record, updates the
last-failure instant and trips to OPEN when the max-fails check fires;
`CircuitOpenState.on_failure` is a no-op; `CircuitHalfOpenState.on_failure`
transitions back to OPEN, updates the last-failure instant and resets the
trial counter. -/
def handle_failure (cb : CircuitBreaker) (now : ℚ) : CircuitBreaker :=
  match cb.storage.circuit_state with
  | CircuitState.CLOSED_STATE =>
      let cb1 := update_last_failure_time (add_call_detail cb false) now
      if check_if_max_fails_reached cb1 then
        set_circuit_breaker_state cb1 CircuitState.OPEN_STATE
      else cb1
  | CircuitState.OPEN_STATE => cb
  | CircuitState.HALF_OPEN_STATE =>
      reset_half_open_state_calls_counter
        (update_last_failure_time (set_circuit_breaker_state cb CircuitState.OPEN_STATE) now)

/-- `handle_before_call`, dispatched to the handler of the current state:
the closed and half-open handlers always permit; the open handler admits the
call and moves to HALF_OPEN when the cool-down check passes, raises
`CircuitOpenException` when it fails, and propagates the `TypeError` from the
cool-down check when `last_failure_time` was never set. -/
def handle_before_call (cb : CircuitBreaker) (now : ℚ) : Except PyError CircuitBreaker :=
  match cb.storage.circuit_state with
  | CircuitState.OPEN_STATE =>
      match check_if_open_state_duration_elapsed cb now with
      | .error e => .error e
      | .ok true => .ok (set_circuit_breaker_state cb CircuitState.HALF_OPEN_STATE)
      | .ok false => .error .circuitOpen
  | CircuitState.CLOSED_STATE => .ok cb
  | CircuitState.HALF_OPEN_STATE => .ok cb

/-- Outcome of one invocation of the wrapped callable, as seen by the caller:
either the work's return value is delivered, or an exception surfaces. -/
inductive CallResult where
  | returned
  | raised (e : PyError)
deriving DecidableEq, Repr

/-- `CircuitBreaker.__call__`'s `wrapper`, for one protected call.
`work_raises` tells whether the wrapped work raises its own exception and
`duration` is the measured `end_time - start_time`. Rejection by
`handle_before_call` happens before the `try` block, so it surfaces directly
with no outcome dispatched; a slow-call breach after a normal return is
caught by the `except` clause, dispatched as a failure and re-raised; a work
exception is dispatched as a failure and re-raised. -/
def protectedCall (cb : CircuitBreaker) (now : ℚ) (work_raises : Bool) (duration : ℚ) :
    CallResult × CircuitBreaker :=
  match handle_before_call cb now with
  | .error e => (.raised e, cb)
  | .ok cb1 =>
      if work_raises then
        (.raised .workError, handle_failure cb1 now)
      else
        match check_if_execution_time_breached cb1 0 duration with
        | .error e => (.raised e, handle_failure cb1 now)
        | .ok _ => (.returned, handle_success cb1)

/-- One externally triggerable breaker operation: a protected call, the
administrative `set_circuit_breaker_state`, or `reset_calls`. -/
inductive BreakerOp where
  | call (now : ℚ) (work_raises : Bool) (duration : ℚ)
  | set_state (s : CircuitState)
  | reset
deriving DecidableEq, Repr

/-- Apply one breaker operation. -/
def applyOp (cb : CircuitBreaker) : BreakerOp → CircuitBreaker
  | .call now work_raises duration => (protectedCall cb now work_raises duration).2
  | .set_state s => set_circuit_breaker_state cb s
  | .reset => reset_calls cb

/-- Run a sequence of breaker operations from left to right. -/
def runOps (cb : CircuitBreaker) : List BreakerOp → CircuitBreaker
  | [] => cb
  | op :: rest => runOps (applyOp cb op) rest

/-- Feed a sequence of call outcomes through the protected-call wrapper at a
fixed instant: `true` is a call whose work returns, `false` one whose work
raises; no call is slow (duration 0). -/
def runOutcomes (cb : CircuitBreaker) (now : ℚ) : List Bool → CircuitBreaker
  | [] => cb
  | b :: rest => runOutcomes (protectedCall cb now (!b) 0).2 now rest

/-- The spec's concrete scenario: count-based window of size 10 and
failure-rate threshold 0.5, everything else defaulted. -/
def cbHalfRate : CircuitBreaker :=
  mkCircuitBreaker (some SlidingWindowType.COUNT_BASED) (some 10) none (some (1/2))
    none none none none

/-- A breaker that trips on its first failure: window size 1, rate 1. -/
def cbOneShot : CircuitBreaker :=
  mkCircuitBreaker none (some 1) none (some 1) none none none none

/-- `cbOneShot` after one failed call at instant 0: OPEN with
`last_failure_time = 0` and the default 10-second cool-down. -/
def cbTripped : CircuitBreaker :=
  runOutcomes cbOneShot 0 [false]

/-- A closed breaker with a slow-call duration threshold of 1 second. -/
def cbSlow : CircuitBreaker :=
  mkCircuitBreaker none none none none (some 1) none none none

/-- A breaker with half-open trial threshold 2, put in HALF_OPEN by the
administrative state setter (trial counter still 0). -/
def cbTrial2 : CircuitBreaker :=
  set_circuit_breaker_state (mkCircuitBreaker none none none none none (some 2) none none)
    CircuitState.HALF_OPEN_STATE

/-- A fresh breaker moved to OPEN by the administrative state setter without
ever observing a failure, so `last_failure_time` is still `None`. -/
def cbOpenNoFailure : CircuitBreaker :=
  set_circuit_breaker_state (mkCircuitBreaker none none none none none none none none)
    CircuitState.OPEN_STATE

/-- A sample operation sequence exercising every kind of breaker operation. -/
def sampleOps : List BreakerOp :=
  [BreakerOp.call 0 true 0, BreakerOp.call 0 false 0, BreakerOp.call 1 true 0,
   BreakerOp.set_state CircuitState.OPEN_STATE, BreakerOp.reset,
   BreakerOp.set_state CircuitState.CLOSED_STATE, BreakerOp.call 2 true 0]

set_option maxRecDepth 8000

/-! Helper lemmas about the primitive operations. -/

lemma update_total_calls_details_length (w : Nat) (l : List Bool) :
    (update_total_calls_details w l).length = min l.length w := by
  induction l with
  | nil => simp [update_total_calls_details]
  | cons c rest ih =>
      simp only [update_total_calls_details]
      split_ifs with h
      · simp only [List.length_cons] at h ⊢; rw [ih]; omega
      · simp only [List.length_cons] at h ⊢; omega

lemma add_call_detail_length (cb : CircuitBreaker) (b : Bool) :
    (add_call_detail cb b).storage.total_calls.length =
      min (cb.storage.total_calls.length + 1) cb.storage.count_based_window_size := by
  simp [add_call_detail, update_total_calls_details_length]

lemma handle_before_call_ok_cases (cb : CircuitBreaker) (now : ℚ) (cb1 : CircuitBreaker)
    (h : handle_before_call cb now = Except.ok cb1) :
    cb1 = cb ∨ cb1 = set_circuit_breaker_state cb CircuitState.HALF_OPEN_STATE := by
  cases hs : cb.storage.circuit_state with
  | CLOSED_STATE => left; simp [handle_before_call, hs] at h; exact h.symm
  | HALF_OPEN_STATE => left; simp [handle_before_call, hs] at h; exact h.symm
  | OPEN_STATE =>
      cases hc : check_if_open_state_duration_elapsed cb now with
      | error e => simp [handle_before_call, hs, hc] at h
      | ok b =>
          cases b with
          | false => simp [handle_before_call, hs, hc] at h
          | true => right; simp [handle_before_call, hs, hc] at h; exact h.symm

lemma check_if_execution_time_breached_error (cb : CircuitBreaker) (s e : ℚ) (e' : PyError)
    (h : check_if_execution_time_breached cb s e = Except.error e') :
    e' = PyError.slowCall := by
  unfold check_if_execution_time_breached at h
  split at h
  · simp at h
  · split_ifs at h
    all_goals simp_all

lemma handle_success_last_failure_time (cb : CircuitBreaker) :
    (handle_success cb).last_failure_time = cb.last_failure_time := by
  cases hs : cb.storage.circuit_state with
  | CLOSED_STATE => simp [handle_success, hs, add_call_detail]
  | OPEN_STATE => simp [handle_success, hs, add_call_detail]
  | HALF_OPEN_STATE =>
      simp only [handle_success, hs]
      split <;>
        simp [reset_half_open_state_calls_counter, reset_calls, set_circuit_breaker_state,
          increment_half_open_state_success_calls]

lemma handle_success_window_size (cb : CircuitBreaker) :
    (handle_success cb).storage.count_based_window_size =
      cb.storage.count_based_window_size := by
  cases hs : cb.storage.circuit_state with
  | CLOSED_STATE => simp [handle_success, hs, add_call_detail]
  | OPEN_STATE => simp [handle_success, hs, add_call_detail]
  | HALF_OPEN_STATE =>
      simp only [handle_success, hs]
      split <;>
        simp [reset_half_open_state_calls_counter, reset_calls, set_circuit_breaker_state,
          increment_half_open_state_success_calls]

lemma handle_failure_window_size (cb : CircuitBreaker) (now : ℚ) :
    (handle_failure cb now).storage.count_based_window_size =
      cb.storage.count_based_window_size := by
  cases hs : cb.storage.circuit_state with
  | CLOSED_STATE =>
      simp only [handle_failure, hs]
      split <;>
        simp [set_circuit_breaker_state, update_last_failure_time, add_call_detail]
  | OPEN_STATE => simp [handle_failure, hs]
  | HALF_OPEN_STATE =>
      simp [handle_failure, hs, reset_half_open_state_calls_counter,
        update_last_failure_time, set_circuit_breaker_state]

lemma handle_success_window_bound (cb : CircuitBreaker)
    (h : cb.storage.total_calls.length ≤ cb.storage.count_based_window_size) :
    (handle_success cb).storage.total_calls.length ≤
      cb.storage.count_based_window_size := by
  cases hs : cb.storage.circuit_state with
  | CLOSED_STATE => rw [handle_success, hs, add_call_detail_length]; omega
  | OPEN_STATE => rw [handle_success, hs, add_call_detail_length]; omega
  | HALF_OPEN_STATE =>
      simp only [handle_success, hs]
      split
      · simp [reset_half_open_state_calls_counter, reset_calls, set_circuit_breaker_state,
          increment_half_open_state_success_calls]
      · simpa [increment_half_open_state_success_calls] using h

lemma handle_failure_window_bound (cb : CircuitBreaker) (now : ℚ)
    (h : cb.storage.total_calls.length ≤ cb.storage.count_based_window_size) :
    (handle_failure cb now).storage.total_calls.length ≤
      cb.storage.count_based_window_size := by
  cases hs : cb.storage.circuit_state with
  | CLOSED_STATE =>
      simp only [handle_failure, hs]
      split <;>
        · simp only [set_circuit_breaker_state, update_last_failure_time,
            add_call_detail, update_total_calls_details_length, List.length_append]
          omega
  | OPEN_STATE => simpa [handle_failure, hs] using h
  | HALF_OPEN_STATE =>
      simpa [handle_failure, hs, reset_half_open_state_calls_counter,
        update_last_failure_time, set_circuit_breaker_state] using h

lemma protectedCall_window_bound (cb : CircuitBreaker) (now : ℚ) (wr : Bool) (dur : ℚ)
    (h : cb.storage.total_calls.length ≤ cb.storage.count_based_window_size) :
    (protectedCall cb now wr dur).2.storage.total_calls.length ≤
      cb.storage.count_based_window_size ∧
    (protectedCall cb now wr dur).2.storage.count_based_window_size =
      cb.storage.count_based_window_size := by
  cases hbc : handle_before_call cb now with
  | error e => simp [protectedCall, hbc, h]
  | ok cb1 =>
      have hfields : cb1.storage.total_calls = cb.storage.total_calls ∧
          cb1.storage.count_based_window_size = cb.storage.count_based_window_size := by
        rcases handle_before_call_ok_cases cb now cb1 hbc with h1 | h1 <;>
          simp [h1, set_circuit_breaker_state]
      have h1 : cb1.storage.total_calls.length ≤ cb1.storage.count_based_window_size := by
        rw [hfields.1, hfields.2]; exact h
      cases wr with
      | true =>
          simp only [protectedCall, hbc, if_true]
          rw [← hfields.2]
          exact ⟨by simpa [handle_failure_window_size] using
              handle_failure_window_bound cb1 now h1,
            handle_failure_window_size cb1 now⟩
      | false =>
          cases hc : check_if_execution_time_breached cb1 0 dur with
          | error e =>
              simp only [protectedCall, hbc, if_false, Bool.false_eq_true, hc]
              rw [← hfields.2]
              exact ⟨handle_failure_window_bound cb1 now h1, handle_failure_window_size cb1 now⟩
          | ok u =>
              simp only [protectedCall, hbc, if_false, Bool.false_eq_true, hc]
              rw [← hfields.2]
              exact ⟨handle_success_window_bound cb1 h1, handle_success_window_size cb1⟩

lemma applyOp_window_bound (cb : CircuitBreaker) (op : BreakerOp)
    (h : cb.storage.total_calls.length ≤ cb.storage.count_based_window_size) :
    (applyOp cb op).storage.total_calls.length ≤ cb.storage.count_based_window_size ∧
    (applyOp cb op).storage.count_based_window_size =
      cb.storage.count_based_window_size := by
  cases op with
  | call now wr dur => exact protectedCall_window_bound cb now wr dur h
  | set_state s => simp [applyOp, set_circuit_breaker_state]; exact h
  | reset => simp [applyOp, reset_calls]

/-! Claim theorems. -/

/-- C6: for every sequence of breaker operations, the stored outcome window's
length never exceeds the configured count-based window size; each append of an
outcome record is immediately followed by eviction from the front until the
bound holds, so appending preserves the bound unconditionally, and the bound
is an invariant of every breaker operation. -/
theorem window_bound_invariant (cb : CircuitBreaker)
    (h : cb.storage.total_calls.length ≤ cb.storage.count_based_window_size) :
    (∀ b, (add_call_detail cb b).storage.total_calls.length ≤
        cb.storage.count_based_window_size) ∧
    (∀ ops, (runOps cb ops).storage.total_calls.length ≤
        cb.storage.count_based_window_size) := by
  have main : ∀ (ops : List BreakerOp) (c : CircuitBreaker),
      c.storage.total_calls.length ≤ c.storage.count_based_window_size →
      (runOps c ops).storage.total_calls.length ≤ c.storage.count_based_window_size ∧
      (runOps c ops).storage.count_based_window_size = c.storage.count_based_window_size := by
    intro ops
    induction ops with
    | nil => intro c hc; exact ⟨hc, rfl⟩
    | cons op rest ih =>
        intro c hc
        have h1 := applyOp_window_bound c op hc
        have h2 := ih (applyOp c op) (le_of_le_of_eq h1.1 h1.2.symm)
        constructor
        · rw [runOps]; rw [h1.2] at h2; exact h2.1
        · rw [runOps, h2.2, h1.2]

  constructor
  · intro b; rw [add_call_detail_length]; omega
  · intro ops; exact (main ops cb h).1

/-- Witness for C6 at a concrete breaker and operation list. -/
theorem window_bound_invariant_witness :
    ((add_call_detail cbHalfRate true).storage.total_calls.length ≤
        cbHalfRate.storage.count_based_window_size) ∧
    ((runOps cbHalfRate sampleOps).storage.total_calls.length ≤
        cbHalfRate.storage.count_based_window_size) :=
  ⟨(window_bound_invariant cbHalfRate (by with_unfolding_all decide)).1 true,
   (window_bound_invariant cbHalfRate (by with_unfolding_all decide)).2 sampleOps⟩

/-- C9: when the state tag is OPEN while `last_failure_time` is still `None`
(reachable by the administrative `set_circuit_breaker_state` on a breaker that
never observed a failure), a protected call fails with the `TypeError` raised
inside the elapsed-cool-down check, not with `CircuitOpenError`; the breaker
is left unchanged. -/
theorem open_without_failure_typeerror (cb : CircuitBreaker) (now : ℚ)
    (hst : cb.storage.circuit_state = CircuitState.OPEN_STATE)
    (hlft : cb.last_failure_time = none) (wr : Bool) (dur : ℚ) :
    protectedCall cb now wr dur = (CallResult.raised PyError.typeError, cb) ∧
    PyError.typeError ≠ PyError.circuitOpen := by
  constructor
  · simp [protectedCall, handle_before_call, hst, check_if_open_state_duration_elapsed, hlft]
  · decide

/-- Witness for C9: a fresh breaker forced OPEN administratively raises
`TypeError` on its next protected call. -/
theorem open_without_failure_typeerror_witness :
    protectedCall cbOpenNoFailure 0 false 0 =
      (CallResult.raised PyError.typeError, cbOpenNoFailure) ∧
    PyError.typeError ≠ PyError.circuitOpen :=
  open_without_failure_typeerror cbOpenNoFailure 0 rfl rfl false 0

/-- C10: constructing storage with a falsy (zero) configuration argument for
the count-based window size, the failure rate, the open-state duration or the
half-open trial threshold silently stores the corresponding default
(2, 1.0, 10.0 and 1 respectively), so zero can never be configured. -/
theorem falsy_config_defaults :
    (mkCircuitStorage none (some 0) none none none none none none).count_based_window_size =
      DEFAULT_COUNT_BASED_WINDOW_SIZE ∧
    (mkCircuitStorage none none none (some 0) none none none none).failure_rate =
      DEFAULT_FAILURE_RATE ∧
    (mkCircuitStorage none none none none none none none (some 0)).open_state_duration =
      DEFAULT_OPEN_STATE_DURATION ∧
    (mkCircuitStorage none none none none none (some 0) none none).half_open_state_calls_threshold =
      DEFAULT_HALF_OPEN_STATE_CALLS ∧
    DEFAULT_COUNT_BASED_WINDOW_SIZE = 2 ∧ DEFAULT_FAILURE_RATE = 1 ∧
    DEFAULT_OPEN_STATE_DURATION = 10 ∧ DEFAULT_HALF_OPEN_STATE_CALLS = 1 := by
  with_unfolding_all decide

/-- C1 counterexample: with window size 10 and failure-rate threshold 0.5,
recording F,F,F,F,F,S,S,S,S,S leaves the breaker CLOSED even though the
window then holds 10 outcomes with failure fraction 5/10 = 0.5 ≥ 0.5: the
10th outcome is a success, and the trip condition is only evaluated when a
failure is recorded, so the breaker does not trip when the 10th outcome is
recorded as the claim states. -/
theorem closed_trip_scenario_cex :
    cbHalfRate.storage.count_based_window_size = 10 ∧
    cbHalfRate.storage.failure_rate = 1 / 2 ∧
    (runOutcomes cbHalfRate 0
        [false, false, false, false, false, true, true, true, true, true]
      ).storage.total_calls.length = 10 ∧
    failCount (runOutcomes cbHalfRate 0
        [false, false, false, false, false, true, true, true, true, true]
      ).storage.total_calls = 5 ∧
    (runOutcomes cbHalfRate 0
        [false, false, false, false, false, true, true, true, true, true]
      ).storage.circuit_state = CircuitState.CLOSED_STATE := by
  with_unfolding_all decide

/-- C1 (amended): while CLOSED, the trip condition is evaluated only when a
failure outcome is recorded. A success keeps the breaker CLOSED regardless of
the window contents; recording a failure transitions CLOSED to OPEN if and
only if, after the failure is appended (and the oldest entries evicted), the
stored window has reached the configured size W and its failure fraction is
at least the failure-rate threshold — in particular the breaker never trips
while fewer than W outcomes are stored. -/
theorem closed_trip_iff_failure_recorded (cb : CircuitBreaker) (now : ℚ)
    (hst : cb.storage.circuit_state = CircuitState.CLOSED_STATE)
    (_hW : 1 ≤ cb.storage.count_based_window_size) :
    ((handle_success cb).storage.circuit_state = CircuitState.CLOSED_STATE) ∧
    ((handle_failure cb now).storage.circuit_state = CircuitState.OPEN_STATE ↔
      (cb.storage.count_based_window_size ≤
          (update_total_calls_details cb.storage.count_based_window_size
            (cb.storage.total_calls ++ [false])).length ∧
       cb.storage.failure_rate ≤
          (failCount (update_total_calls_details cb.storage.count_based_window_size
              (cb.storage.total_calls ++ [false])) : ℚ) /
            ((update_total_calls_details cb.storage.count_based_window_size
              (cb.storage.total_calls ++ [false])).length : ℚ))) := by
  refine ⟨by simp [handle_success, hst, add_call_detail], ?_⟩
  have hchk_iff : check_if_max_fails_reached (update_last_failure_time (add_call_detail cb false) now) = true ↔
      (cb.storage.count_based_window_size ≤
          (update_total_calls_details cb.storage.count_based_window_size
            (cb.storage.total_calls ++ [false])).length ∧
       cb.storage.failure_rate ≤
          (failCount (update_total_calls_details cb.storage.count_based_window_size
              (cb.storage.total_calls ++ [false])) : ℚ) /
            ((update_total_calls_details cb.storage.count_based_window_size
              (cb.storage.total_calls ++ [false])).length : ℚ)) := by
    simp only [check_if_max_fails_reached, update_last_failure_time, add_call_detail]
    split_ifs with hlen
    · simp [hlen]
    · simp [hlen]
  simp only [handle_failure, hst]
  by_cases hchk : check_if_max_fails_reached (update_last_failure_time (add_call_detail cb false) now) = true
  · rw [if_pos hchk]
    exact iff_of_true rfl (hchk_iff.mp hchk)
  · rw [if_neg hchk]
    exact iff_of_false (by simp [update_last_failure_time, add_call_detail, hst])
      (fun hr => hchk (hchk_iff.mpr hr))

/-- Witness for C1 (amended) at the scenario breaker: one success and one
failure recorded on the empty window of size 10. -/
theorem closed_trip_iff_failure_recorded_witness :
    ((handle_success cbHalfRate).storage.circuit_state = CircuitState.CLOSED_STATE) ∧
    ((handle_failure cbHalfRate 0).storage.circuit_state = CircuitState.OPEN_STATE ↔
      (cbHalfRate.storage.count_based_window_size ≤
          (update_total_calls_details cbHalfRate.storage.count_based_window_size
            (cbHalfRate.storage.total_calls ++ [false])).length ∧
       cbHalfRate.storage.failure_rate ≤
          (failCount (update_total_calls_details cbHalfRate.storage.count_based_window_size
              (cbHalfRate.storage.total_calls ++ [false])) : ℚ) /
            ((update_total_calls_details cbHalfRate.storage.count_based_window_size
              (cbHalfRate.storage.total_calls ++ [false])).length : ℚ))) :=
  closed_trip_iff_failure_recorded cbHalfRate 0 rfl (by with_unfolding_all decide)

lemma timedeltaSeconds_le (d : ℚ) (h : 0 ≤ d) : (timedeltaSeconds d : ℚ) ≤ d := by
  unfold timedeltaSeconds
  have h1 : (0 : ℤ) ≤ ⌊d⌋ := Int.floor_nonneg.mpr h
  have h2 : ⌊d⌋ % 86400 ≤ ⌊d⌋ := by
    rcases lt_or_le ⌊d⌋ 86400 with hlt | hle
    · rw [Int.emod_eq_of_lt h1 hlt]
    · exact le_trans (Int.emod_lt_of_pos _ (by norm_num)).le hle
  calc ((⌊d⌋ % 86400 : ℤ) : ℚ) ≤ (⌊d⌋ : ℚ) := by exact_mod_cast h2
    _ ≤ d := Int.floor_le d

/-- C2 counterexample: a breaker of window size 1 and rate 1 trips OPEN at
instant 0; a call at instant 86401 — a full day plus one second later, so the
default 10-second cool-down has genuinely elapsed — is still rejected with
`CircuitOpenError`, because the check compares only the seconds-within-day
component (⌊86401⌋ mod 86400 = 1 < 10) of the elapsed time. -/
theorem open_gate_day_wrap_cex :
    cbTripped.storage.circuit_state = CircuitState.OPEN_STATE ∧
    cbTripped.last_failure_time = some 0 ∧
    cbTripped.storage.open_state_duration = 10 ∧
    cbTripped.storage.open_state_duration ≤ (86401 : ℚ) - 0 ∧
    protectedCall cbTripped 86401 false 0 =
      (CallResult.raised PyError.circuitOpen, cbTripped) := by
  with_unfolding_all decide

/-- C2 (amended): while OPEN with `last_failure_time = t`, a call at instant
`now` is admitted (and the state set to HALF_OPEN) exactly when the
seconds-within-day component of the elapsed time, `⌊now - t⌋ mod 86400`,
reaches the cool-down duration; otherwise the call is rejected with
`CircuitOpenError` and the wrapped work never executes. The admission
criterion is the truncated component, not the true elapsed duration. -/
theorem open_gate_seconds_component (cb : CircuitBreaker) (now t : ℚ)
    (hst : cb.storage.circuit_state = CircuitState.OPEN_STATE)
    (hlft : cb.last_failure_time = some t) :
    (cb.storage.open_state_duration ≤ (timedeltaSeconds (now - t) : ℚ) →
        handle_before_call cb now =
          Except.ok (set_circuit_breaker_state cb CircuitState.HALF_OPEN_STATE) ∧
        (set_circuit_breaker_state cb CircuitState.HALF_OPEN_STATE).storage.circuit_state =
          CircuitState.HALF_OPEN_STATE) ∧
    ((timedeltaSeconds (now - t) : ℚ) < cb.storage.open_state_duration →
        ∀ work_raises duration,
          protectedCall cb now work_raises duration =
            (CallResult.raised PyError.circuitOpen, cb)) := by
  constructor
  · intro h
    refine ⟨?_, rfl⟩
    simp [handle_before_call, hst, check_if_open_state_duration_elapsed, hlft, h]
  · intro h work_raises duration
    have hno : ¬ (cb.storage.open_state_duration ≤ (timedeltaSeconds (now - t) : ℚ)) :=
      not_le.mpr h
    simp [protectedCall, handle_before_call, hst, check_if_open_state_duration_elapsed,
      hlft, hno]

/-- Witness for C2 (amended): the tripped breaker admits a probe at instant
10 and rejects a call at instant 5. -/
theorem open_gate_seconds_component_witness :
    (handle_before_call cbTripped 10 =
        Except.ok (set_circuit_breaker_state cbTripped CircuitState.HALF_OPEN_STATE) ∧
      (set_circuit_breaker_state cbTripped CircuitState.HALF_OPEN_STATE).storage.circuit_state =
        CircuitState.HALF_OPEN_STATE) ∧
    protectedCall cbTripped 5 false 0 = (CallResult.raised PyError.circuitOpen, cbTripped) :=
  ⟨(open_gate_seconds_component cbTripped 10 0 (by with_unfolding_all decide)
      (by with_unfolding_all decide)).1 (by with_unfolding_all decide),
   (open_gate_seconds_component cbTripped 5 0 (by with_unfolding_all decide)
      (by with_unfolding_all decide)).2 (by with_unfolding_all decide) false 0⟩

/-- C5: while OPEN with the cool-down genuinely not elapsed (the elapsed time
since the last failure is nonnegative and below the cool-down duration),
every protected call raises `CircuitOpenError` and returns the breaker
completely unchanged — outcome window, counters, state tag and last-failure
time included — and this holds for any number of repeated rejected calls. -/
theorem open_rejection_no_mutation (cb : CircuitBreaker) (now t : ℚ)
    (hst : cb.storage.circuit_state = CircuitState.OPEN_STATE)
    (hlft : cb.last_failure_time = some t)
    (h0 : 0 ≤ now - t)
    (hlt : now - t < cb.storage.open_state_duration) :
    (∀ work_raises duration,
        protectedCall cb now work_raises duration =
          (CallResult.raised PyError.circuitOpen, cb)) ∧
    (∀ work_raises duration n,
        (fun c => (protectedCall c now work_raises duration).2)^[n] cb = cb) := by
  have key : ¬ (cb.storage.open_state_duration ≤ (timedeltaSeconds (now - t) : ℚ)) :=
    not_le.mpr (lt_of_le_of_lt (timedeltaSeconds_le _ h0) hlt)
  have hone : ∀ work_raises duration,
      protectedCall cb now work_raises duration =
        (CallResult.raised PyError.circuitOpen, cb) := by
    intro work_raises duration
    simp [protectedCall, handle_before_call, hst, check_if_open_state_duration_elapsed,
      hlft, key]
  refine ⟨hone, ?_⟩
  intro work_raises duration n
  induction n with
  | zero => rfl
  | succ k ih => rw [Function.iterate_succ_apply, hone work_raises duration, ih]

/-- Witness for C5: the tripped breaker at instant 5 (elapsed 5 < 10),
rejected once and thrice-iterated. -/
theorem open_rejection_no_mutation_witness :
    protectedCall cbTripped 5 true 0 = (CallResult.raised PyError.circuitOpen, cbTripped) ∧
    (fun c => (protectedCall c 5 true 0).2)^[3] cbTripped = cbTripped :=
  ⟨(open_rejection_no_mutation cbTripped 5 0 (by with_unfolding_all decide)
      (by with_unfolding_all decide) (by with_unfolding_all decide)
      (by with_unfolding_all decide)).1 true 0,
   (open_rejection_no_mutation cbTripped 5 0 (by with_unfolding_all decide)
      (by with_unfolding_all decide) (by with_unfolding_all decide)
      (by with_unfolding_all decide)).2 true 0 3⟩

/-- C3 counterexample: with slow-call threshold 1 second, a work unit that
raises its own error after 2 seconds — duration meeting the threshold — is
dispatched as a failure with the work's own error, and the caller receives
the work's error, not `SlowCallError`: the breach check only runs after a
normal return. -/
theorem slow_call_raise_path_cex :
    cbSlow.storage.slow_call_duration = some 1 ∧
    (1 : ℚ) ≤ 2 ∧
    (protectedCall cbSlow 0 true 2).1 = CallResult.raised PyError.workError ∧
    CallResult.raised PyError.workError ≠ CallResult.raised PyError.slowCall := by
  with_unfolding_all decide

/-- C3 (amended): when a slow-call threshold is configured, slow-call
classification applies only to calls whose work returns normally: such a call
with duration meeting the threshold is dispatched as a failure and the caller
receives `SlowCallError` instead of the work's return value; a call whose
work raises is dispatched as a failure with the work's own error and the
caller receives that error, regardless of duration. -/
theorem slow_call_only_on_return (cb cb1 : CircuitBreaker) (now dur d : ℚ)
    (hd : cb.storage.slow_call_duration = some d)
    (hok : handle_before_call cb now = Except.ok cb1) :
    (d ≤ dur →
        protectedCall cb now false dur =
          (CallResult.raised PyError.slowCall, handle_failure cb1 now)) ∧
    (protectedCall cb now true dur =
        (CallResult.raised PyError.workError, handle_failure cb1 now)) := by
  have hslow1 : cb1.storage.slow_call_duration = some d := by
    rcases handle_before_call_ok_cases cb now cb1 hok with h1 | h1 <;>
      simp [h1, set_circuit_breaker_state, hd]
  constructor
  · intro h
    have hbr : check_if_execution_time_breached cb1 0 dur = Except.error PyError.slowCall := by
      simp [check_if_execution_time_breached, hslow1, sub_zero, h]
    simp [protectedCall, hok, hbr]
  · simp [protectedCall, hok]

/-- Witness for C3 (amended): the slow-threshold breaker with a 2-second
call, returning and raising. -/
theorem slow_call_only_on_return_witness :
    protectedCall cbSlow 0 false 2 =
      (CallResult.raised PyError.slowCall, handle_failure cbSlow 0) ∧
    protectedCall cbSlow 0 true 2 =
      (CallResult.raised PyError.workError, handle_failure cbSlow 0) :=
  ⟨(slow_call_only_on_return cbSlow cbSlow 0 2 1 rfl rfl).1 (by norm_num),
   (slow_call_only_on_return cbSlow cbSlow 0 2 1 rfl rfl).2⟩

lemma handle_success_half_open_below (cb : CircuitBreaker)
    (hst : cb.storage.circuit_state = CircuitState.HALF_OPEN_STATE)
    (hlt : cb.storage.half_open_state_total_calls + 1 <
      cb.storage.half_open_state_calls_threshold) :
    handle_success cb = increment_half_open_state_success_calls cb := by
  have hno : ¬ (cb.storage.half_open_state_calls_threshold ≤
      cb.storage.half_open_state_total_calls + 1) := by omega
  simp [handle_success, hst, check_half_open_call_success,
    increment_half_open_state_success_calls, hno]

lemma handle_success_half_open_at (cb : CircuitBreaker)
    (hst : cb.storage.circuit_state = CircuitState.HALF_OPEN_STATE)
    (hge : cb.storage.half_open_state_calls_threshold ≤
      cb.storage.half_open_state_total_calls + 1) :
    handle_success cb = reset_half_open_state_calls_counter (reset_calls
      (set_circuit_breaker_state (increment_half_open_state_success_calls cb)
        CircuitState.CLOSED_STATE)) := by
  simp [handle_success, hst, check_half_open_call_success,
    increment_half_open_state_success_calls, hge]

lemma handle_success_iter_half_open (k : Nat) :
    ∀ cb : CircuitBreaker, cb.storage.circuit_state = CircuitState.HALF_OPEN_STATE →
      cb.storage.half_open_state_total_calls + k <
        cb.storage.half_open_state_calls_threshold →
      (handle_success^[k] cb).storage.circuit_state = CircuitState.HALF_OPEN_STATE ∧
      (handle_success^[k] cb).storage.half_open_state_total_calls =
        cb.storage.half_open_state_total_calls + k ∧
      (handle_success^[k] cb).storage.half_open_state_calls_threshold =
        cb.storage.half_open_state_calls_threshold ∧
      (handle_success^[k] cb).storage.total_calls = cb.storage.total_calls ∧
      (handle_success^[k] cb).last_failure_time = cb.last_failure_time := by
  induction k with
  | zero => intro cb hst _; simp [hst]
  | succ k ih =>
      intro cb hst hlt
      have hstep : handle_success cb = increment_half_open_state_success_calls cb :=
        handle_success_half_open_below cb hst (by omega)
      have h1 := ih (increment_half_open_state_success_calls cb)
        (by simpa [increment_half_open_state_success_calls] using hst)
        (by simp [increment_half_open_state_success_calls]; omega)
      rw [Function.iterate_succ_apply, hstep]
      refine ⟨h1.1, ?_, ?_, ?_, ?_⟩
      · rw [h1.2.1]; simp [increment_half_open_state_success_calls]; omega
      · rw [h1.2.2.1]; simp [increment_half_open_state_success_calls]
      · rw [h1.2.2.2.1]; simp [increment_half_open_state_success_calls]
      · rw [h1.2.2.2.2]; simp [increment_half_open_state_success_calls]

/-- C4: from HALF_OPEN with a zero trial counter, each of the first
threshold-minus-one successful calls keeps the breaker HALF_OPEN with the
counter equal to the number of successes so far; exactly
`half_open_state_calls_threshold` consecutive successes transition it to
CLOSED, clear the outcome window and reset the counter to zero; and a single
failure at any point of the trial batch — after any number of successes below
the threshold — immediately transitions back to OPEN, updates the
last-failure instant and resets the counter to zero. -/
theorem half_open_trial (cb : CircuitBreaker) (now : ℚ)
    (hst : cb.storage.circuit_state = CircuitState.HALF_OPEN_STATE)
    (hcnt : cb.storage.half_open_state_total_calls = 0)
    (hT : 1 ≤ cb.storage.half_open_state_calls_threshold) :
    (∀ k, k < cb.storage.half_open_state_calls_threshold →
        (handle_success^[k] cb).storage.circuit_state = CircuitState.HALF_OPEN_STATE ∧
        (handle_success^[k] cb).storage.half_open_state_total_calls = k) ∧
    ((handle_success^[cb.storage.half_open_state_calls_threshold] cb).storage.circuit_state =
        CircuitState.CLOSED_STATE ∧
      (handle_success^[cb.storage.half_open_state_calls_threshold] cb).storage.total_calls =
        [] ∧
      (handle_success^[cb.storage.half_open_state_calls_threshold]
          cb).storage.half_open_state_total_calls = 0) ∧
    (∀ k, k < cb.storage.half_open_state_calls_threshold →
        (handle_failure (handle_success^[k] cb) now).storage.circuit_state =
          CircuitState.OPEN_STATE ∧
        (handle_failure (handle_success^[k] cb) now).last_failure_time = some now ∧
        (handle_failure (handle_success^[k] cb) now).storage.half_open_state_total_calls =
          0) := by
  have hiter := fun (k : Nat) (hk : k < cb.storage.half_open_state_calls_threshold) =>
    handle_success_iter_half_open k cb hst (by omega)
  refine ⟨?_, ?_, ?_⟩
  · intro k hk
    exact ⟨(hiter k hk).1, by rw [(hiter k hk).2.1, hcnt, Nat.zero_add]⟩
  · have hk1 : cb.storage.half_open_state_total_calls +
        (cb.storage.half_open_state_calls_threshold - 1) <
        cb.storage.half_open_state_calls_threshold := by omega
    have hy := handle_success_iter_half_open
      (cb.storage.half_open_state_calls_threshold - 1) cb hst hk1
    have hstep := handle_success_half_open_at
      (handle_success^[cb.storage.half_open_state_calls_threshold - 1] cb) hy.1
      (by rw [hy.2.1, hy.2.2.1, hcnt]; omega)
    have hsplit : handle_success^[cb.storage.half_open_state_calls_threshold] cb =
        handle_success
          (handle_success^[cb.storage.half_open_state_calls_threshold - 1] cb) := by
      conv_lhs =>
        rw [show cb.storage.half_open_state_calls_threshold =
          (cb.storage.half_open_state_calls_threshold - 1) + 1 by omega]
      rw [Function.iterate_succ_apply']
    rw [hsplit, hstep]
    refine ⟨?_, ?_, ?_⟩ <;>
      simp [reset_half_open_state_calls_counter, reset_calls, set_circuit_breaker_state,
        increment_half_open_state_success_calls]
  · intro k hk
    refine ⟨?_, ?_, ?_⟩ <;>
      simp [handle_failure, (hiter k hk).1, reset_half_open_state_calls_counter,
        update_last_failure_time, set_circuit_breaker_state]

/-- Witness for C4 at the trial-threshold-2 breaker: one success stays
HALF_OPEN with counter 1, two successes close and clear, and a failure after
one success reopens. -/
theorem half_open_trial_witness :
    ((handle_success^[1] cbTrial2).storage.circuit_state = CircuitState.HALF_OPEN_STATE ∧
      (handle_success^[1] cbTrial2).storage.half_open_state_total_calls = 1) ∧
    ((handle_success^[cbTrial2.storage.half_open_state_calls_threshold]
        cbTrial2).storage.circuit_state = CircuitState.CLOSED_STATE ∧
      (handle_success^[cbTrial2.storage.half_open_state_calls_threshold]
        cbTrial2).storage.total_calls = [] ∧
      (handle_success^[cbTrial2.storage.half_open_state_calls_threshold]
        cbTrial2).storage.half_open_state_total_calls = 0) ∧
    ((handle_failure (handle_success^[1] cbTrial2) 7).storage.circuit_state =
        CircuitState.OPEN_STATE ∧
      (handle_failure (handle_success^[1] cbTrial2) 7).last_failure_time = some 7 ∧
      (handle_failure (handle_success^[1] cbTrial2) 7).storage.half_open_state_total_calls =
        0) :=
  ⟨(half_open_trial cbTrial2 7 rfl rfl (by with_unfolding_all decide)).1 1
      (by with_unfolding_all decide),
   (half_open_trial cbTrial2 7 rfl rfl (by with_unfolding_all decide)).2.1,
   (half_open_trial cbTrial2 7 rfl rfl (by with_unfolding_all decide)).2.2 1
      (by with_unfolding_all decide)⟩

lemma protectedCall_rejected_unchanged (cb : CircuitBreaker) (now : ℚ) (wr : Bool)
    (dur : ℚ)
    (h : (protectedCall cb now wr dur).1 = CallResult.raised PyError.circuitOpen ∨
         (protectedCall cb now wr dur).1 = CallResult.raised PyError.typeError) :
    (protectedCall cb now wr dur).2 = cb := by
  cases hbc : handle_before_call cb now with
  | error e => simp [protectedCall, hbc]
  | ok cb1 =>
      exfalso
      cases wr with
      | true => simp [protectedCall, hbc] at h
      | false =>
          cases hc : check_if_execution_time_breached cb1 0 dur with
          | error e2 =>
              have he2 : e2 = PyError.slowCall :=
                check_if_execution_time_breached_error cb1 0 dur e2 hc
              simp [protectedCall, hbc, hc, he2] at h
          | ok u => simp [protectedCall, hbc, hc] at h

/-- C7 counterexample: a completed, successful protected call dispatched
while HALF_OPEN creates no outcome record: the call returns, yet the stored
window is unchanged (still empty), contradicting "exactly one Outcome Record
is created and appended per completed call attempt in whatever state the
outcome is dispatched". -/
theorem half_open_no_record_cex :
    cbTrial2.storage.circuit_state = CircuitState.HALF_OPEN_STATE ∧
    (protectedCall cbTrial2 0 false 0).1 = CallResult.returned ∧
    (protectedCall cbTrial2 0 false 0).2.storage.total_calls =
      cbTrial2.storage.total_calls ∧
    cbTrial2.storage.total_calls = [] := by
  with_unfolding_all decide

/-- C7 (amended): an outcome record is appended exactly when the outcome is
dispatched by the shared base handler: both outcomes while CLOSED append one
record (success or failure), and a success dispatched while OPEN appends one
record through the inherited base `on_success`; a failure dispatched while
OPEN appends nothing, outcomes dispatched while HALF_OPEN append nothing
(a completed trial instead clears the window), and a call rejected while the
circuit is open leaves the breaker — window included — unchanged. -/
theorem outcome_record_per_state (cb : CircuitBreaker) (now : ℚ) :
    ((cb.storage.circuit_state = CircuitState.CLOSED_STATE ∨
      cb.storage.circuit_state = CircuitState.OPEN_STATE) →
      (handle_success cb).storage.total_calls =
        update_total_calls_details cb.storage.count_based_window_size
          (cb.storage.total_calls ++ [true])) ∧
    (cb.storage.circuit_state = CircuitState.CLOSED_STATE →
      (handle_failure cb now).storage.total_calls =
        update_total_calls_details cb.storage.count_based_window_size
          (cb.storage.total_calls ++ [false])) ∧
    (cb.storage.circuit_state = CircuitState.OPEN_STATE →
      (handle_failure cb now).storage.total_calls = cb.storage.total_calls) ∧
    (cb.storage.circuit_state = CircuitState.HALF_OPEN_STATE →
      (handle_failure cb now).storage.total_calls = cb.storage.total_calls ∧
      ((handle_success cb).storage.total_calls = cb.storage.total_calls ∨
       (handle_success cb).storage.total_calls = [])) ∧
    (∀ work_raises duration,
      ((protectedCall cb now work_raises duration).1 =
          CallResult.raised PyError.circuitOpen ∨
       (protectedCall cb now work_raises duration).1 =
          CallResult.raised PyError.typeError) →
      (protectedCall cb now work_raises duration).2 = cb) := by
  refine ⟨?_, ?_, ?_, ?_, ?_⟩
  · rintro (h | h) <;> simp [handle_success, h, add_call_detail]
  · intro h
    simp only [handle_failure, h]
    split <;> simp [set_circuit_breaker_state, update_last_failure_time, add_call_detail]
  · intro h; simp [handle_failure, h]
  · intro h
    constructor
    · simp [handle_failure, h, reset_half_open_state_calls_counter,
        update_last_failure_time, set_circuit_breaker_state]
    · simp only [handle_success, h]
      split
      · right
        simp [reset_half_open_state_calls_counter, reset_calls, set_circuit_breaker_state,
          increment_half_open_state_success_calls]
      · left; simp [increment_half_open_state_success_calls]
  · intro work_raises duration h
    exact protectedCall_rejected_unchanged cb now work_raises duration h

/-- Witness for C7 (amended) at the half-open breaker: failures append
nothing and successes either leave the window or clear it. -/
theorem outcome_record_per_state_witness :
    (handle_failure cbTrial2 0).storage.total_calls = cbTrial2.storage.total_calls ∧
    ((handle_success cbTrial2).storage.total_calls = cbTrial2.storage.total_calls ∨
     (handle_success cbTrial2).storage.total_calls = []) :=
  (outcome_record_per_state cbTrial2 0).2.2.2.1 rfl

/-- C8: `last_failure_time` is written exactly by a failure dispatched while
CLOSED or while HALF_OPEN (set to the current instant); a failure dispatched
while OPEN, every success, the administrative state setter, `reset_calls`,
rejected calls, and successful protected calls all leave it unchanged. -/
theorem last_failure_time_frame (cb : CircuitBreaker) (now : ℚ) :
    ((handle_success cb).last_failure_time = cb.last_failure_time) ∧
    (cb.storage.circuit_state = CircuitState.OPEN_STATE →
      (handle_failure cb now).last_failure_time = cb.last_failure_time) ∧
    ((cb.storage.circuit_state = CircuitState.CLOSED_STATE ∨
      cb.storage.circuit_state = CircuitState.HALF_OPEN_STATE) →
      (handle_failure cb now).last_failure_time = some now) ∧
    (∀ s, (set_circuit_breaker_state cb s).last_failure_time = cb.last_failure_time) ∧
    ((reset_calls cb).last_failure_time = cb.last_failure_time) ∧
    (∀ work_raises duration,
      ((protectedCall cb now work_raises duration).1 =
          CallResult.raised PyError.circuitOpen ∨
       (protectedCall cb now work_raises duration).1 =
          CallResult.raised PyError.typeError) →
      (protectedCall cb now work_raises duration).2.last_failure_time =
        cb.last_failure_time) ∧
    (∀ duration, (protectedCall cb now false duration).1 = CallResult.returned →
      (protectedCall cb now false duration).2.last_failure_time =
        cb.last_failure_time) := by
  refine ⟨handle_success_last_failure_time cb, ?_, ?_, ?_, ?_, ?_, ?_⟩
  · intro h; simp [handle_failure, h]
  · rintro (h | h)
    · simp only [handle_failure, h]
      split <;> simp [set_circuit_breaker_state, update_last_failure_time, add_call_detail]
    · simp [handle_failure, h, reset_half_open_state_calls_counter,
        update_last_failure_time, set_circuit_breaker_state]
  · intro s; simp [set_circuit_breaker_state]
  · simp [reset_calls]
  · intro work_raises duration h
    rw [protectedCall_rejected_unchanged cb now work_raises duration h]
  · intro duration h
    cases hbc : handle_before_call cb now with
    | error e => simp [protectedCall, hbc] at h
    | ok cb1 =>
        cases hc : check_if_execution_time_breached cb1 0 duration with
        | error e2 => simp [protectedCall, hbc, hc] at h
        | ok u =>
            simp only [protectedCall, hbc, if_false, Bool.false_eq_true, hc]
            rw [handle_success_last_failure_time]
            rcases handle_before_call_ok_cases cb now cb1 hbc with h1 | h1 <;>
              simp [h1, set_circuit_breaker_state]

/-- Witness for C8 at the closed scenario breaker: a success leaves the
last-failure time unchanged and a failure sets it to the current instant. -/
theorem last_failure_time_frame_witness :
    (handle_success cbHalfRate).last_failure_time = cbHalfRate.last_failure_time ∧
    (handle_failure cbHalfRate 3).last_failure_time = some 3 :=
  ⟨(last_failure_time_frame cbHalfRate 3).1,
   (last_failure_time_frame cbHalfRate 3).2.2.1 (Or.inl rfl)⟩

end CircuitWatch
